import Mathlib

/-!
Verification of `tio.py` (CLI client for Tenable.IO)

Shallow embedding of the local logic of `src/tio.py` and proofs about it.

The program is glue code around an external API client (`TenableIO`): the
only local logic is (a) matching a configured scan by id via
`json.dumps(scan["id"]) == str(scan_id)`, (b) clamping a requested history
offset to the number of available records, (c) credential bootstrap and
persistence at `~/.tio/client.json`, (d) exporting scan results to
`<filename>.<format>` files, (e) command-line routing.

The external client is modelled as explicit parameters (the scan list, the
history list, the export byte source), and all observable behaviour (prints,
collaborator calls, files written) is reified as data so theorems can speak
about it.
-/

set_option maxHeartbeats 1000000

namespace Tio

/-- Python/JSON values, as far as `tio.py` manipulates them: the scan summary
fields (`status`, `id`, `uuid`, `name`, `creation_date`) and the credential
file contents are dynamically typed JSON data. -/
inductive JVal where
  | jnull
  | jbool (b : Bool)
  | jnum (n : Int)
  | jstr (s : String)
  | jarr (xs : List JVal)
  | jobj (kvs : List (String × JVal))

/-- One character of `json.dumps` string escaping: Python's serializer
escapes the backslash and the double quote (non-ASCII / control escapes do
not arise for the values this program serializes). -/
def jescapeChar (c : Char) : String :=
  if c = '\\' then "\\\\"
  else if c = '\x22' then "\\\x22"
  else String.singleton c

/-- `json.dumps` escaping of a string body. -/
def jescape (s : String) : String :=
  String.join (s.data.map jescapeChar)

mutual

/-- Model of Python `json.dumps(v)` with default separators: the compact
one-line serialization used by `tio.py` to compare scan ids and creation
dates against strings. -/
def jdump : JVal → String
  | .jnull => "null"
  | .jbool b => if b then "true" else "false"
  | .jnum n => toString n
  | .jstr s => "\x22" ++ jescape s ++ "\x22"
  | .jarr xs => "[" ++ jdumpArr xs ++ "]"
  | .jobj kvs => "\x7b" ++ jdumpObj kvs ++ "\x7d"

/-- `json.dumps` of the element list of a JSON array. -/
def jdumpArr : List JVal → String
  | [] => ""
  | [x] => jdump x
  | x :: xs => jdump x ++ ", " ++ jdumpArr xs

/-- `json.dumps` of the member list of a JSON object. -/
def jdumpObj : List (String × JVal) → String
  | [] => ""
  | [kv] => "\x22" ++ jescape kv.1 ++ "\x22" ++ ": " ++ jdump kv.2
  | kv :: kvs => "\x22" ++ jescape kv.1 ++ "\x22" ++ ": " ++ jdump kv.2 ++ ", " ++ jdumpObj kvs

end

/-- A scan summary as returned by `tio.scans.list()`: the five fields the
script reads (`'{status}\t{id}/{uuid} - {name}'.format(**scan)` and the
`id` / `creation_date` lookups in `get_scan_history`). -/
structure Scan where
  status : JVal
  id : JVal
  uuid : JVal
  name : JVal
  creation_date : JVal

/-- One history record as returned by `tio.scans.history(scan_id)`: the
script reads `time_start` and `time_end`, which the collaborator supplies
as epoch-second integers (`int(json.dumps(h["time_start"]))` in the source
is the identity on an integer field). -/
structure HistRec where
  time_start : Int
  time_end : Int
deriving DecidableEq

/-! ## `datetime.datetime.fromtimestamp`

The script converts epoch seconds to a local human-readable
`YYYY-MM-DD HH:MM:SS` string.  Local time is modelled at the fixed
reference timezone UTC (the spec's own example fixes the reference
timezone so that epoch `1609459200` renders as `2021-01-01 00:00:00`).
The civil-from-days computation is the standard proleptic-Gregorian
conversion. -/

/-- Two-digit zero padding of a calendar/time component. -/
def pad2 (n : Int) : String :=
  if n < 10 then "0" ++ toString n else toString n

/-- Days since 1970-01-01 to civil `(year, month, day)` in the proleptic
Gregorian calendar. -/
def civilFromDays (z0 : Int) : Int × Int × Int :=
  let z := z0 + 719468
  let era := Int.ediv z 146097
  let doe := z - era * 146097
  let yoe := Int.ediv (doe - Int.ediv doe 1460 + Int.ediv doe 36524 - Int.ediv doe 146096) 365
  let y := yoe + era * 400
  let doy := doe - (365 * yoe + Int.ediv yoe 4 - Int.ediv yoe 100)
  let mp := Int.ediv (5 * doy + 2) 153
  let d := doy - Int.ediv (153 * mp + 2) 5 + 1
  let m := mp + (if mp < 10 then 3 else -9)
  (y + (if m ≤ 2 then 1 else 0), m, d)

/-- Model of `str(datetime.datetime.fromtimestamp(t))` at the fixed
reference timezone: epoch seconds to `YYYY-MM-DD HH:MM:SS`. -/
def fromtimestamp (t : Int) : String :=
  let days := Int.ediv t 86400
  let secs := Int.emod t 86400
  let c := civilFromDays days
  let hh := Int.ediv secs 3600
  let mm := Int.emod (Int.ediv secs 60) 60
  let ss := Int.emod secs 60
  toString c.1 ++ "-" ++ pad2 c.2.1 ++ "-" ++ pad2 c.2.2 ++ " " ++
    pad2 hh ++ ":" ++ pad2 mm ++ ":" ++ pad2 ss

/-! ## Observable behaviour of the `info` handler

`configured_scans_info` / `get_scan_history` / `show_scan_info` print to
stdout and make collaborator calls.  Both are reified as a list of events
so theorems can count printed records, detect the clamp notice, and detect
whether a history fetch was performed. -/

/-- One observable step of the `info` handler: a printed line or a
collaborator call. -/
inductive Ev where
  /-- `print ()` — an empty line. -/
  | blank
  /-- The `'STATUS\t\tSCAN_ID/UUID\t\t\t\t- SCAN NAME'` title line. -/
  | listTitle
  /-- One `'{status}\t{id}/{uuid} - {name}'` line for a configured scan. -/
  | scanLine (s : Scan)
  /-- The `"Number of scans configured: "` line. -/
  | countLine (n : Nat)
  /-- The `"The scan_id referenced has zero records."` notice. -/
  | zeroRecords
  /-- The collaborator call `tio.scans.history(scan_id)`. -/
  | fetchHistory (sid : Int)
  /-- The `'SCAN_ID\t\tSCAN NAME'` column header. -/
  | colHeader
  /-- The `json.dumps(id) + "\t\t" + json.dumps(name)` header line. -/
  | scanHeader (line : String)
  /-- The `"Note: maximum records for this configured scan is: "` notice,
  carrying the clamped offset it prints. -/
  | clampNote (m : Nat)
  /-- One printed history record: the two `"Date & Time scan ..."` lines
  (already converted with `fromtimestamp`) plus the record dump. -/
  | record (startS endS : String) (r : HistRec)
  /-- One `field : value` line printed by `show_scan_info`. -/
  | infoField (field : String) (v : JVal)

/-- The scan-by-id comparison of `get_scan_history`:
`json.dumps(configured_scans[i]["id"]) == str(scan_id)`. -/
def scanMatches (s : Scan) (scan_id : Int) : Bool :=
  jdump s.id == toString scan_id

/-- The early-return condition of `get_scan_history`: some configured scan
whose serialized id equals `str(scan_id)` has a `creation_date` serializing
to `"0"` (the loop does not break on a match with nonzero creation date, so
the condition is an existence over the whole list). -/
def zero_record_return (configured_scans : List Scan) (scan_id : Int) : Bool :=
  configured_scans.any (fun s => scanMatches s scan_id && (jdump s.creation_date == "0"))

/-- The four output lines of one history record in `get_scan_history`:
start time, end time, full record, blank line. -/
def recordEvents (r : HistRec) : List Ev :=
  [Ev.record (fromtimestamp r.time_start) (fromtimestamp r.time_end) r, Ev.blank]

/-- Model of `get_scan_history(tio, scan_id, offset, configured_scans)`.
`service_history` is the list `tio.scans.history(scan_id)` would return
(most recent first, as returned by the service); the fetch itself is the
`Ev.fetchHistory` event.  `offset` is the `-o` value, an `int` in Python,
so it is an `Int` here; `range(offset)` of a non-positive offset is empty,
which `Int.toNat` reproduces. -/
def get_scan_history (scan_id : Int) (offset : Int) (configured_scans : List Scan)
    (service_history : List HistRec) : List Ev :=
  if zero_record_return configured_scans scan_id then
    [Ev.blank, Ev.zeroRecords, Ev.blank]
  else
    [Ev.fetchHistory scan_id, Ev.blank, Ev.blank, Ev.colHeader] ++
      (match configured_scans.find? (fun s => scanMatches s scan_id) with
       | some s => [Ev.scanHeader (jdump s.id ++ "\t\t" ++ jdump s.name)]
       | none => []) ++
      [Ev.blank] ++
      (if (service_history.length : Int) < offset then
        [Ev.clampNote service_history.length, Ev.blank]
       else []) ++
      (service_history.take
        (if (service_history.length : Int) < offset then (service_history.length : Int)
         else offset).toNat).flatMap recordEvents

/-- Model of `show_scan_info`: prints each `field : value` pair of
`tio.scans.info(scan_id, uuid)` and a blank line. -/
def show_scan_info (scan_config : List (String × JVal)) : List Ev :=
  scan_config.map (fun kv => Ev.infoField kv.1 kv.2) ++ [Ev.blank]

/-- The `if scan_id and uuid: show_scan_info(...)` step of the handler:
runs only for a truthy uuid (Python truthiness: `None` and `""` are
falsy). -/
def uuid_info_part (uuid : Option String) (scan_config : List (String × JVal)) : List Ev :=
  match uuid with
  | some u => if u = "" then [] else show_scan_info scan_config
  | none => []

/-- Model of `configured_scans_info`, the `info` handler: prints the scan
listing, then — Python truthiness: `if scan_id:` is false for `None` and
for `0` — runs `get_scan_history`, and with a (truthy) uuid additionally
`show_scan_info`.  The collaborator responses are the `scans`,
`service_history` and `scan_config` parameters. -/
def configured_scans_info (scan_id : Option Int) (offset : Int) (uuid : Option String)
    (scans : List Scan) (service_history : List HistRec)
    (scan_config : List (String × JVal)) : List Ev :=
  [Ev.blank, Ev.listTitle] ++ scans.map Ev.scanLine ++ [Ev.countLine scans.length, Ev.blank] ++
    (match scan_id with
     | some sid =>
       if sid = 0 then []
       else
         get_scan_history sid offset scans service_history ++
           uuid_info_part uuid scan_config
     | none => [])

/-! ### Trace observations -/

/-- The history records printed in a trace, with the two human-readable
timestamp strings each was printed with, in print order. -/
def printedRecords (tr : List Ev) : List (String × String × HistRec) :=
  tr.filterMap (fun e => match e with
    | .record a b r => some (a, b, r)
    | _ => none)

/-- Whether the clamp notice appears in a trace. -/
def clampNoted (tr : List Ev) : Bool :=
  tr.any (fun e => match e with | .clampNote _ => true | _ => false)

/-- Whether a `tio.scans.history` call appears in a trace. -/
def historyFetched (tr : List Ev) : Bool :=
  tr.any (fun e => match e with | .fetchHistory _ => true | _ => false)

/-- Whether the zero-records notice appears in a trace. -/
def zeroNoticed (tr : List Ev) : Bool :=
  tr.any (fun e => match e with | .zeroRecords => true | _ => false)

/-- The first scan id/name header line of a trace, if any. -/
def headerOf (tr : List Ev) : Option String :=
  tr.findSome? (fun e => match e with | .scanHeader l => some l | _ => none)

/-! ## Association-list file system

Paths map to contents; `setA` models a write (create or replace), `removeA`
models deletion.  `setA` keeps at most one binding per key, so `List.lookup`
sees exactly the last write. -/

/-- Delete every binding of a key. -/
def removeA {α : Type} (l : List (String × α)) (k : String) : List (String × α) :=
  l.filter (fun kv => kv.1 != k)

/-- Write a key (create or overwrite). -/
def setA {α : Type} (l : List (String × α)) (k : String) (v : α) : List (String × α) :=
  (k, v) :: removeA l k

/-! ## Credential store (`check_api_keys`) -/

/-- Path of the credential file: `home + "/.tio/client.json"`. -/
def client_json_path (home : String) : String := home ++ "/.tio/client.json"

/-- Path of the credential directory: `home + "/.tio"`. -/
def tio_dir_path (home : String) : String := home ++ "/.tio"

/-- The external client object `TenableIO(access, secret)`, holding whatever
values were passed (the parsed JSON fields are dynamically typed). -/
structure TenableIO where
  access_key : JVal
  secret_key : JVal

/-- Local file-system state touched by `check_api_keys`: directories with
their creation mode, files with their (parsed JSON) contents, and file
permission modes. -/
structure TioState where
  dirs : List (String × Nat)
  files : List (String × JVal)
  fmodes : List (String × Nat)

/-- Result of `check_api_keys`: the constructed client, the number of
`input()` calls made (two on first run — one per key — zero otherwise), and
the file system afterwards. -/
structure CheckResult where
  tio : TenableIO
  prompts : Nat
  st : TioState

/-- JSON object member access `j[k]` (Python `dict` subscript). -/
def jget : JVal → String → Option JVal
  | .jobj kvs, k => List.lookup k kvs
  | _, _ => none

/-- `apikeys['tenable_io']['a_key']` and `...['s_key']`: `none` models the
uncaught `KeyError`/`TypeError` a malformed file raises. -/
def getKeys (j : JVal) : Option (JVal × JVal) :=
  match jget j ("tenable_io") with
  | some t =>
    match jget t ("a_key"), jget t ("s_key") with
    | some a, some s => some (a, s)
    | _, _ => none
  | none => none

/-- The credential record written on first run:
`{"tenable_io": {"a_key": a, "s_key": s}}` (with `sort_keys=True`,
`a_key` precedes `s_key`). -/
def credJson (a s : String) : JVal :=
  .jobj [(("tenable_io"), .jobj [(("a_key"), .jstr a), (("s_key"), .jstr s)])]

/-- File-system effect of the first-run branch of `check_api_keys`:
`os.mkdir(home + "/.tio", 0o700)` when the directory does not exist, then
`json.dump` of the credential record to `client.json`, then
`os.chmod(..., 0o600)`.  (`os.mkdir`'s mode is taken as-is; the umask is
not modelled.) -/
def bootstrap_state (home : String) (st : TioState) (inA inS : String) : TioState :=
  { dirs := if (List.lookup (tio_dir_path home) st.dirs).isSome then st.dirs
            else setA st.dirs (tio_dir_path home) 0o700
    files := setA st.files (client_json_path home) (credJson inA inS)
    fmodes := setA st.fmodes (client_json_path home) 0o600 }

/-- Model of `check_api_keys()`.  A missing file raises `IOError`, the only
exception caught: the handler prompts for the two keys (`inA`, `inS` are
the operator's answers), persists them, and builds the client from them.
A present file is `json.load`ed (the stored `JVal`) and the client is built
from `['tenable_io']['a_key']` / `['s_key']`; a file without that shape
raises an uncaught exception, modelled as `Except.error`. -/
def check_api_keys (home : String) (st : TioState) (inA inS : String) :
    Except String CheckResult :=
  match List.lookup (client_json_path home) st.files with
  | some apikeys =>
    match getKeys apikeys with
    | some ks => .ok ⟨⟨ks.1, ks.2⟩, 0, st⟩
    | none => .error ("KeyError")
  | none =>
    .ok ⟨⟨.jstr inA, .jstr inS⟩, 2, bootstrap_state home st inA inS⟩

/-! ## Export handler (`export_scans`) -/

/-- Result of an `export` invocation: the files on disk afterwards (path to
byte contents), the collaborator calls made (`tio.scans.export(scan_id,
history_id=hid, format=f, fobj=...)` arguments in call order), the
filenames printed, and the propagated exception if any. -/
structure ExportRun where
  fs : List (String × List Nat)
  attempts : List (Option Int × Option Int × String)
  printed : List String
  err : Option String

/-- The per-format loop of `export_scans`: for each format,
`open(filename + '.' + file_type, "wb")` creates/truncates the file, then
the collaborator streams the bytes into it; an exception propagates,
aborting the remaining formats (the just-opened file stays, truncated). -/
def exportLoop (sid hid : Option Int) (filename : String)
    (collab : Option Int → Option Int → String → Except String (List Nat)) :
    List String → List (String × List Nat) → ExportRun
  | [], fs => ⟨fs, [], [], none⟩
  | fmt :: rest, fs =>
    let path := filename ++ "." ++ fmt
    match collab sid hid fmt with
    | .ok b =>
      let r := exportLoop sid hid filename collab rest (setA fs path b)
      ⟨r.fs, (sid, hid, fmt) :: r.attempts, path :: r.printed, r.err⟩
    | .error e => ⟨setA fs path [], [(sid, hid, fmt)], [], some e⟩

/-- Model of `export_scans(tio, args)` including the argparse artifact:
`FileType('w')` already created (truncated) the bare `filename` during
parsing, and on success `os.remove(filename)` deletes that stray file; on
failure the exception propagates before the `os.remove`. -/
def export_scans (sid hid : Option Int) (filename : String) (file_format : List String)
    (collab : Option Int → Option Int → String → Except String (List Nat))
    (fs0 : List (String × List Nat)) : ExportRun :=
  match exportLoop sid hid filename collab file_format (setA fs0 filename []) with
  | ⟨fs, att, pr, none⟩ => ⟨removeA fs filename, att, pr, none⟩
  | ⟨fs, att, pr, some e⟩ => ⟨fs, att, pr, some e⟩

/-! ## Command dispatcher (`main`) -/

/-- The parsed `export` arguments (`args.scan_id` is `None` when `-s` was
not supplied). -/
structure ExportArgs where
  scan_id : Option Int
  history_id : Option Int
  filename : String
  file_format : List String
deriving DecidableEq

/-- `choices=['nessus', 'html', 'pdf', 'csv']`. -/
def export_format_choices : List String := [("nessus"), ("html"), ("pdf"), ("csv")]

/-- Argument scan for the `export` subparser: option tokens take the next
token as their (integer) value, everything else is positional; at the end
the first positional is `filename` and the rest are the formats, each of
which must be one of the four choices.  `none` models an argparse error
exit. -/
def parseExportTokens : List String → Option Int → Option Int → List String →
    Option ExportArgs
  | [], sid, hid, pos =>
    match pos with
    | fname :: fmts =>
      if !fmts.isEmpty && fmts.all (fun f => export_format_choices.contains f) then
        some ⟨sid, hid, fname, fmts⟩
      else none
    | [] => none
  | t :: rest, sid, hid, pos =>
    if t == ("-s") || t == ("--scan_id") then
      match rest with
      | v :: rest2 =>
        match v.toInt? with
        | some n => parseExportTokens rest2 (some n) hid pos
        | none => none
      | [] => none
    else if t == ("-hid") || t == ("--history_id") then
      match rest with
      | v :: rest2 =>
        match v.toInt? with
        | some n => parseExportTokens rest2 sid (some n) pos
        | none => none
      | [] => none
    else parseExportTokens rest sid hid (pos ++ [t])

/-- Parse the tokens following the `export` subcommand. -/
def parse_export_args (toks : List String) : Option ExportArgs :=
  parseExportTokens toks none none []

/-! ## Concrete sample data (used to instantiate the theorems) -/

/-- A configured scan whose id is the JSON number `42`. -/
def scanNum42 : Scan :=
  ⟨.jstr "running", .jnum 42, .jstr "u-42", .jstr "weekly", .jnum 1600000000⟩

/-- A configured scan whose id is the JSON *string* `"42"`. -/
def scanStr42 : Scan :=
  ⟨.jstr "running", .jstr "42", .jstr "u-42", .jstr "weekly", .jnum 1600000000⟩

/-- A configured scan with id `1337` and `creation_date` zero. -/
def scanZero1337 : Scan :=
  ⟨.jstr "empty", .jnum 1337, .jstr "u-13", .jstr "fresh", .jnum 0⟩

/-- Two history records (most recent first). -/
def hist2 : List HistRec := [⟨1609459200, 1609462800⟩, ⟨1609372800, 1609376400⟩]

/-- An export collaborator that succeeds on every format. -/
def collabAllOk : Option Int → Option Int → String → Except String (List Nat) :=
  fun _ _ _ => .ok [1, 2, 3]

/-- An export collaborator that fails on `pdf` and succeeds elsewhere. -/
def collabFailPdf : Option Int → Option Int → String → Except String (List Nat) :=
  fun _ _ f => if f == ("pdf") then .error ("boom") else .ok [7]

/-- The empty local file-system state for `check_api_keys`. -/
def emptyTioState : TioState := ⟨[], [], []⟩

/-! ## Association-list lemmas -/

theorem lookup_removeA_self {α : Type} (l : List (String × α)) (k : String) :
    List.lookup k (removeA l k) = none := by
  induction l with
  | nil => rfl
  | cons kv rest ih =>
    by_cases h : kv.1 = k
    · simpa [removeA, List.filter_cons, h] using ih
    · simpa [removeA, List.filter_cons, h, List.lookup_cons, Ne.symm h] using ih

theorem lookup_removeA_ne {α : Type} {p k : String} (hne : p ≠ k) (l : List (String × α)) :
    List.lookup p (removeA l k) = List.lookup p l := by
  induction l with
  | nil => rfl
  | cons kv rest ih =>
    obtain ⟨k1, v1⟩ := kv
    rw [removeA, List.filter_cons]
    by_cases h : k1 = k
    · rw [if_neg (by simp [h])]
      rw [List.lookup_cons]
      have hpb : (p == k1) = false := by simp [h, hne]
      rw [hpb]
      simpa [removeA] using ih
    · rw [if_pos (by simp [h])]
      rw [List.lookup_cons, List.lookup_cons]
      cases hpb : p == k1
      · simpa [removeA] using ih
      · rfl

theorem lookup_setA_self {α : Type} (l : List (String × α)) (k : String) (v : α) :
    List.lookup k (setA l k v) = some v := by
  rw [setA, List.lookup_cons]
  simp

theorem lookup_setA_ne {α : Type} {p k : String} (hne : p ≠ k) (l : List (String × α)) (v : α) :
    List.lookup p (setA l k v) = List.lookup p l := by
  rw [setA, List.lookup_cons]
  have hpb : (p == k) = false := by simp [hne]
  rw [hpb]
  exact lookup_removeA_ne hne l

/-! ## String path lemmas -/

theorem path_ne_base (F f : String) : F ++ "." ++ f ≠ F := by
  intro h
  have h2 := congrArg String.length h
  rw [String.length_append, String.length_append] at h2
  have : ("." : String).length = 1 := rfl
  omega

theorem path_inj {F f g : String} (h : F ++ "." ++ f = F ++ "." ++ g) : f = g := by
  have h2 := congrArg String.data h
  rw [String.data_append, String.data_append, String.data_append, String.data_append] at h2
  have h4 : String.data "." ++ f.data = String.data "." ++ g.data := by
    apply List.append_cancel_left
    show F.data ++ (String.data "." ++ f.data) = F.data ++ (String.data "." ++ g.data)
    simpa [List.append_assoc] using h2
  have h5 : f.data = g.data := List.append_cancel_left h4
  exact String.ext h5

/-! ## Trace-observation lemmas -/

theorem printedRecords_append (a b : List Ev) :
    printedRecords (a ++ b) = printedRecords a ++ printedRecords b :=
  List.filterMap_append a b _

theorem clampNoted_append (a b : List Ev) :
    clampNoted (a ++ b) = (clampNoted a || clampNoted b) :=
  List.any_append

theorem historyFetched_append (a b : List Ev) :
    historyFetched (a ++ b) = (historyFetched a || historyFetched b) :=
  List.any_append

theorem zeroNoticed_append (a b : List Ev) :
    zeroNoticed (a ++ b) = (zeroNoticed a || zeroNoticed b) :=
  List.any_append

theorem printedRecords_scanLines (scans : List Scan) :
    printedRecords (scans.map Ev.scanLine) = [] := by
  rw [printedRecords, List.filterMap_eq_nil_iff]
  intro a ha
  obtain ⟨s, _, rfl⟩ := List.mem_map.mp ha
  rfl

theorem printedRecords_show (cfg : List (String × JVal)) :
    printedRecords (show_scan_info cfg) = [] := by
  rw [printedRecords, List.filterMap_eq_nil_iff]
  intro a ha
  rcases List.mem_append.mp ha with h | h
  · obtain ⟨kv, _, rfl⟩ := List.mem_map.mp h
    rfl
  · simp only [List.mem_singleton] at h
    subst h; rfl

theorem clampNoted_scanLines (scans : List Scan) :
    clampNoted (scans.map Ev.scanLine) = false := by
  rw [clampNoted, List.any_eq_false]
  intro a ha
  obtain ⟨s, _, rfl⟩ := List.mem_map.mp ha
  simp

theorem clampNoted_show (cfg : List (String × JVal)) :
    clampNoted (show_scan_info cfg) = false := by
  rw [clampNoted, List.any_eq_false]
  intro a ha
  rcases List.mem_append.mp ha with h | h
  · obtain ⟨kv, _, rfl⟩ := List.mem_map.mp h
    simp
  · simp only [List.mem_singleton] at h
    subst h; simp

theorem historyFetched_scanLines (scans : List Scan) :
    historyFetched (scans.map Ev.scanLine) = false := by
  rw [historyFetched, List.any_eq_false]
  intro a ha
  obtain ⟨s, _, rfl⟩ := List.mem_map.mp ha
  simp

theorem historyFetched_show (cfg : List (String × JVal)) :
    historyFetched (show_scan_info cfg) = false := by
  rw [historyFetched, List.any_eq_false]
  intro a ha
  rcases List.mem_append.mp ha with h | h
  · obtain ⟨kv, _, rfl⟩ := List.mem_map.mp h
    simp
  · simp only [List.mem_singleton] at h
    subst h; simp

theorem zeroNoticed_scanLines (scans : List Scan) :
    zeroNoticed (scans.map Ev.scanLine) = false := by
  rw [zeroNoticed, List.any_eq_false]
  intro a ha
  obtain ⟨s, _, rfl⟩ := List.mem_map.mp ha
  simp

theorem zeroNoticed_show (cfg : List (String × JVal)) :
    zeroNoticed (show_scan_info cfg) = false := by
  rw [zeroNoticed, List.any_eq_false]
  intro a ha
  rcases List.mem_append.mp ha with h | h
  · obtain ⟨kv, _, rfl⟩ := List.mem_map.mp h
    simp
  · simp only [List.mem_singleton] at h
    subst h; simp

theorem printedRecords_flat (l : List HistRec) :
    printedRecords (l.flatMap recordEvents) =
      l.map (fun r => (fromtimestamp r.time_start, fromtimestamp r.time_end, r)) := by
  induction l with
  | nil => rfl
  | cons r rest ih =>
    rw [List.flatMap_cons, printedRecords_append, ih]
    rfl

theorem clampNoted_flat (l : List HistRec) :
    clampNoted (l.flatMap recordEvents) = false := by
  induction l with
  | nil => rfl
  | cons r rest ih =>
    rw [List.flatMap_cons, clampNoted_append, ih]
    rfl

/-! ## Traces of `get_scan_history` and `configured_scans_info` -/

theorem get_scan_history_printed (scans : List Scan) (hist : List HistRec) (sid k : Int)
    (hnz : zero_record_return scans sid = false) :
    printedRecords (get_scan_history sid k scans hist) =
      (hist.take (min k (hist.length : Int)).toNat).map
        (fun r => (fromtimestamp r.time_start, fromtimestamp r.time_end, r)) := by
  rw [get_scan_history, if_neg (by simp [hnz])]
  have heff : (if (hist.length : Int) < k then (hist.length : Int) else k)
      = min k (hist.length : Int) := by
    rw [Int.min_def]
    split <;> split <;> omega
  rw [heff]
  rw [printedRecords_append, printedRecords_append, printedRecords_append,
    printedRecords_append, printedRecords_flat]
  have h1 : printedRecords [Ev.fetchHistory sid, Ev.blank, Ev.blank, Ev.colHeader] = [] := rfl
  have h2 : printedRecords
      (match scans.find? (fun s => scanMatches s sid) with
        | some s => [Ev.scanHeader (jdump s.id ++ "\t\t" ++ jdump s.name)]
        | none => []) = [] := by
    cases scans.find? (fun s => scanMatches s sid) <;> rfl
  have h3 : printedRecords
      (if (hist.length : Int) < k then [Ev.clampNote hist.length, Ev.blank] else []) = [] := by
    split <;> rfl
  rw [h1, h2, h3]
  rfl

theorem get_scan_history_clamp (scans : List Scan) (hist : List HistRec) (sid k : Int)
    (hnz : zero_record_return scans sid = false) :
    (clampNoted (get_scan_history sid k scans hist) = true ↔ (hist.length : Int) < k) := by
  rw [get_scan_history, if_neg (by simp [hnz])]
  rw [clampNoted_append, clampNoted_append, clampNoted_append, clampNoted_append,
    clampNoted_flat]
  have h1 : clampNoted [Ev.fetchHistory sid, Ev.blank, Ev.blank, Ev.colHeader] = false := rfl
  have h2 : clampNoted
      (match scans.find? (fun s => scanMatches s sid) with
        | some s => [Ev.scanHeader (jdump s.id ++ "\t\t" ++ jdump s.name)]
        | none => []) = false := by
    cases scans.find? (fun s => scanMatches s sid) <;> rfl
  rw [h1, h2]
  by_cases hc : (hist.length : Int) < k
  · simp [hc, clampNoted]
  · simp [hc, clampNoted]

theorem printedRecords_uuid_part (uuid : Option String) (cfg : List (String × JVal)) :
    printedRecords (uuid_info_part uuid cfg) = [] := by
  cases uuid with
  | none => rfl
  | some u =>
    rw [uuid_info_part]
    by_cases hu : u = ""
    · rw [if_pos hu]; rfl
    · rw [if_neg hu]; exact printedRecords_show cfg

theorem clampNoted_uuid_part (uuid : Option String) (cfg : List (String × JVal)) :
    clampNoted (uuid_info_part uuid cfg) = false := by
  cases uuid with
  | none => rfl
  | some u =>
    rw [uuid_info_part]
    by_cases hu : u = ""
    · rw [if_pos hu]; rfl
    · rw [if_neg hu]; exact clampNoted_show cfg

theorem historyFetched_uuid_part (uuid : Option String) (cfg : List (String × JVal)) :
    historyFetched (uuid_info_part uuid cfg) = false := by
  cases uuid with
  | none => rfl
  | some u =>
    rw [uuid_info_part]
    by_cases hu : u = ""
    · rw [if_pos hu]; rfl
    · rw [if_neg hu]; exact historyFetched_show cfg

theorem zeroNoticed_uuid_part (uuid : Option String) (cfg : List (String × JVal)) :
    zeroNoticed (uuid_info_part uuid cfg) = false := by
  cases uuid with
  | none => rfl
  | some u =>
    rw [uuid_info_part]
    by_cases hu : u = ""
    · rw [if_pos hu]; rfl
    · rw [if_neg hu]; exact zeroNoticed_show cfg

/-- The `info` handler around `get_scan_history`: the listing and the
optional `show_scan_info` tail contribute no history records, no clamp
notice, no history fetch, and no zero-records notice. -/
theorem configured_scans_info_decomp (sid k : Int) (uuid : Option String)
    (scans : List Scan) (hist : List HistRec) (cfg : List (String × JVal))
    (hsid : sid ≠ 0) :
    printedRecords (configured_scans_info (some sid) k uuid scans hist cfg) =
      printedRecords (get_scan_history sid k scans hist) ∧
    clampNoted (configured_scans_info (some sid) k uuid scans hist cfg) =
      clampNoted (get_scan_history sid k scans hist) ∧
    historyFetched (configured_scans_info (some sid) k uuid scans hist cfg) =
      historyFetched (get_scan_history sid k scans hist) ∧
    zeroNoticed (configured_scans_info (some sid) k uuid scans hist cfg) =
      zeroNoticed (get_scan_history sid k scans hist) := by
  rw [configured_scans_info]
  simp only [if_neg hsid]
  refine ⟨?_, ?_, ?_, ?_⟩
  · rw [printedRecords_append, printedRecords_append, printedRecords_append,
      printedRecords_append, printedRecords_scanLines, printedRecords_uuid_part]
    simp [printedRecords]
  · rw [clampNoted_append, clampNoted_append, clampNoted_append,
      clampNoted_append, clampNoted_scanLines, clampNoted_uuid_part]
    simp [clampNoted]
  · rw [historyFetched_append, historyFetched_append, historyFetched_append,
      historyFetched_append, historyFetched_scanLines, historyFetched_uuid_part]
    simp [historyFetched]
  · rw [zeroNoticed_append, zeroNoticed_append, zeroNoticed_append,
      zeroNoticed_append, zeroNoticed_scanLines, zeroNoticed_uuid_part]
    simp [zeroNoticed]

/-! ## Claims about the `info` handler -/

/-- **C1.** For every scan with `n` available history records and requested
offset `k`, the `info` handler with a `scan_id` prints exactly `min(k, n)`
history records in the order returned by the service (most recent first —
a prefix of the service's list), prints a clamp notice exactly when
`k > n`, and prints, for each printed record, its start and end timestamps
converted from epoch seconds to local human-readable time
(`fromtimestamp`).  The record-count conjunct reads `min(k, n)` as a count,
so it carries `0 ≤ k`; the prefix and clamp conjuncts hold for every `k`. -/
theorem info_history_prints_min_records (scans : List Scan) (hist : List HistRec)
    (sid k : Int) (uuid : Option String) (cfg : List (String × JVal))
    (hsid : sid ≠ 0) (hnz : zero_record_return scans sid = false) :
    printedRecords (configured_scans_info (some sid) k uuid scans hist cfg) =
      (hist.take (min k (hist.length : Int)).toNat).map
        (fun r => (fromtimestamp r.time_start, fromtimestamp r.time_end, r)) ∧
    (0 ≤ k →
      ((printedRecords (configured_scans_info (some sid) k uuid scans hist cfg)).length : Int)
        = min k (hist.length : Int)) ∧
    (clampNoted (configured_scans_info (some sid) k uuid scans hist cfg) = true ↔
      (hist.length : Int) < k) := by
  obtain ⟨hp, hc, _, _⟩ := configured_scans_info_decomp sid k uuid scans hist cfg hsid
  rw [hp, hc]
  refine ⟨get_scan_history_printed scans hist sid k hnz, ?_,
    get_scan_history_clamp scans hist sid k hnz⟩
  intro hk
  rw [get_scan_history_printed scans hist sid k hnz]
  rw [List.length_map, List.length_take]
  omega

/-- Witness for C1: scan `42`, offset `10`, two history records: both
records print with the spec's reference conversion and the clamp notice
appears. -/
theorem info_history_prints_min_records_witness :
    (42 : Int) ≠ 0 ∧ zero_record_return [scanNum42] 42 = false ∧
    printedRecords (configured_scans_info (some 42) 10 none [scanNum42] hist2 []) =
      (hist2.take (min 10 (hist2.length : Int)).toNat).map
        (fun r => (fromtimestamp r.time_start, fromtimestamp r.time_end, r)) ∧
    ((printedRecords (configured_scans_info (some 42) 10 none [scanNum42] hist2 [])).length : Int)
      = min 10 (hist2.length : Int) ∧
    clampNoted (configured_scans_info (some 42) 10 none [scanNum42] hist2 []) = true := by
  have h := info_history_prints_min_records [scanNum42] hist2 42 10 none []
    (by decide) (by decide)
  exact ⟨by decide, by decide, h.1, h.2.1 (by decide), (h.2.2).mpr (by decide)⟩

/-- **C2.** For every configured-scan list containing an entry whose ID
matches the requested `scan_id` and whose `creation_date` is zero, the
history lookup prints the zero-records notice and returns without fetching
any history from the service (and prints no history records). -/
theorem info_zero_records_skips_fetch (scans : List Scan) (hist : List HistRec)
    (sid k : Int) (uuid : Option String) (cfg : List (String × JVal)) (s0 : Scan)
    (hsid : sid ≠ 0) (hmem : s0 ∈ scans) (hid : jdump s0.id = toString sid)
    (hcd : s0.creation_date = .jnum 0) :
    zeroNoticed (configured_scans_info (some sid) k uuid scans hist cfg) = true ∧
    historyFetched (configured_scans_info (some sid) k uuid scans hist cfg) = false ∧
    printedRecords (configured_scans_info (some sid) k uuid scans hist cfg) = [] := by
  have hz : zero_record_return scans sid = true := by
    rw [zero_record_return, List.any_eq_true]
    refine ⟨s0, hmem, ?_⟩
    rw [Bool.and_eq_true]
    constructor
    · rw [scanMatches, hid]
      simp
    · rw [hcd]
      rfl
  have hgs : get_scan_history sid k scans hist = [Ev.blank, Ev.zeroRecords, Ev.blank] := by
    rw [get_scan_history, if_pos hz]
  obtain ⟨hp, _, hf, hzn⟩ := configured_scans_info_decomp sid k uuid scans hist cfg hsid
  rw [hp, hf, hzn, hgs]
  exact ⟨rfl, rfl, rfl⟩

/-- Witness for C2: scan list holding id `1337` with `creation_date` 0. -/
theorem info_zero_records_skips_fetch_witness :
    (1337 : Int) ≠ 0 ∧ scanZero1337 ∈ [scanZero1337] ∧
    jdump scanZero1337.id = toString (1337 : Int) ∧
    scanZero1337.creation_date = .jnum 0 ∧
    zeroNoticed (configured_scans_info (some 1337) 3 none [scanZero1337] hist2 []) = true ∧
    historyFetched (configured_scans_info (some 1337) 3 none [scanZero1337] hist2 []) = false := by
  have h := info_zero_records_skips_fetch [scanZero1337] hist2 1337 3 none [] scanZero1337
    (by decide) (List.mem_singleton.mpr rfl) (by decide) rfl
  exact ⟨by decide, List.mem_singleton.mpr rfl, by decide, rfl, h.1, h.2.1⟩

/-- **C10.** For every non-positive requested offset (zero or negative) and
every scan with at least one history record, the `info` handler's history
lookup prints zero history records and prints no clamp notice. -/
theorem info_nonpositive_offset_prints_nothing (scans : List Scan) (hist : List HistRec)
    (sid k : Int) (uuid : Option String) (cfg : List (String × JVal))
    (hsid : sid ≠ 0) (hk : k ≤ 0) (hn : 1 ≤ hist.length) :
    printedRecords (configured_scans_info (some sid) k uuid scans hist cfg) = [] ∧
    clampNoted (configured_scans_info (some sid) k uuid scans hist cfg) = false := by
  obtain ⟨hp, hc, _, _⟩ := configured_scans_info_decomp sid k uuid scans hist cfg hsid
  rw [hp, hc]
  cases hz : zero_record_return scans sid with
  | true =>
    rw [get_scan_history, if_pos hz]
    exact ⟨rfl, rfl⟩
  | false =>
    constructor
    · rw [get_scan_history_printed scans hist sid k hz]
      have h0 : (min k (hist.length : Int)).toNat = 0 :=
        Int.toNat_eq_zero.mpr (le_trans (min_le_left _ _) hk)
      rw [h0]
      rfl
    · cases hcl : clampNoted (get_scan_history sid k scans hist) with
      | false => rfl
      | true =>
        exfalso
        have := (get_scan_history_clamp scans hist sid k hz).mp hcl
        omega

/-- Witness for C10: scan `42`, offset `0`, two history records. -/
theorem info_nonpositive_offset_prints_nothing_witness :
    (42 : Int) ≠ 0 ∧ (0 : Int) ≤ 0 ∧ 1 ≤ hist2.length ∧
    printedRecords (configured_scans_info (some 42) 0 none [scanNum42] hist2 []) = [] ∧
    clampNoted (configured_scans_info (some 42) 0 none [scanNum42] hist2 []) = false := by
  have h := info_nonpositive_offset_prints_nothing [scanNum42] hist2 42 0 none []
    (by decide) (by decide) (by decide)
  exact ⟨by decide, by decide, by decide, h.1, h.2⟩

/-! ## Claim C5: scan-by-ID matching -/

/-- **C5 counterexample.** The claim says a summary whose ID is 42 matches a
request for scan ID 42 regardless of either value's native representation
(numeric or string).  A summary whose `id` is the JSON *string* `"42"`
does not match the (argparse-integer) request `42`: `json.dumps` quotes the
string, so the comparison is `'"42"' == '42'`, which is false. -/
theorem scan_match_string_rep_counterexample :
    scanMatches scanStr42 42 = false := by decide

/-- **C5 (amended).** The scan-by-ID match holds iff the `json.dumps`
serialization of the summary's id string-equals the string form of the
requested ID.  A summary whose id is the JSON *number* 42 matches a request
for 42, but a summary whose id is the JSON *string* `"42"` does not (its
serialization carries quotes).  The first matching summary wins: the
header line printed is the first match's. -/
theorem scan_match_serialization_rules (s : Scan) (reqId : Int)
    (s1 : Scan) (rest : List Scan) (sid k : Int) (hist : List HistRec)
    (st u nm cd : JVal) (n : Int)
    (hm : scanMatches s1 sid = true)
    (hnz : zero_record_return (s1 :: rest) sid = false) :
    (scanMatches s reqId = true ↔ jdump s.id = toString reqId) ∧
    scanMatches ⟨st, .jnum n, u, nm, cd⟩ n = true ∧
    scanMatches scanStr42 42 = false ∧
    headerOf (get_scan_history sid k (s1 :: rest) hist) =
      some (jdump s1.id ++ "\t\t" ++ jdump s1.name) := by
  refine ⟨?_, ?_, by decide, ?_⟩
  · rw [scanMatches]
    exact beq_iff_eq
  · rw [scanMatches]
    simp [jdump]
  · rw [get_scan_history, if_neg (by simp [hnz])]
    rw [List.find?_cons_of_pos rest hm]
    simp [headerOf, List.findSome?_cons, List.cons_append, List.nil_append]

/-- Witness for C5 (amended), at scan id 42 with a numeric-id first match. -/
theorem scan_match_serialization_rules_witness :
    scanMatches scanNum42 42 = true ∧
    zero_record_return [scanNum42] 42 = false ∧
    (scanMatches scanStr42 42 = true ↔ jdump scanStr42.id = toString (42 : Int)) ∧
    scanMatches ⟨.jstr "s", .jnum 7, .jstr "u", .jstr "n", .jnum 1⟩ 7 = true ∧
    headerOf (get_scan_history 42 1 [scanNum42] hist2) =
      some (jdump scanNum42.id ++ "\t\t" ++ jdump scanNum42.name) := by
  have h := scan_match_serialization_rules scanStr42 42 scanNum42 [] 42 1 hist2
    (.jstr "s") (.jstr "u") (.jstr "n") (.jnum 1) 7 (by decide) (by decide)
  exact ⟨by decide, by decide, h.1, h.2.1, h.2.2.2⟩

/-! ## Claims about the credential store -/

/-- **C3.** Obtaining the authenticated client prompts for credentials iff
the credential file is absent: with no credential file, the run prompts for
exactly the two values (access key, secret key — two `input()` calls) and
persists them; a subsequent run on the resulting state prompts zero times
and constructs the client from the stored keys; and any run with a present,
parseable file prompts zero times and constructs the client from the
stored keys. -/
theorem check_api_keys_prompts_iff_absent (home a s a2 s2 : String) (st st2 : TioState)
    (j ka ks : JVal)
    (habs : List.lookup (client_json_path home) st.files = none)
    (hpres : List.lookup (client_json_path home) st2.files = some j)
    (hkeys : getKeys j = some (ka, ks)) :
    check_api_keys home st a s = .ok ⟨⟨.jstr a, .jstr s⟩, 2, bootstrap_state home st a s⟩ ∧
    check_api_keys home (bootstrap_state home st a s) a2 s2 =
      .ok ⟨⟨.jstr a, .jstr s⟩, 0, bootstrap_state home st a s⟩ ∧
    check_api_keys home st2 a2 s2 = .ok ⟨⟨ka, ks⟩, 0, st2⟩ := by
  refine ⟨?_, ?_, ?_⟩
  · rw [check_api_keys, habs]
  · have h1 : List.lookup (client_json_path home) (bootstrap_state home st a s).files
        = some (credJson a s) := by
      rw [bootstrap_state]
      exact lookup_setA_self _ _ _
    have h2 : getKeys (credJson a s) = some (.jstr a, .jstr s) := rfl
    simp only [check_api_keys, h1, h2]
  · simp only [check_api_keys, hpres, hkeys]

/-- Witness for C3: bootstrap from an empty file system, then a second run
on the persisted state. -/
theorem check_api_keys_prompts_iff_absent_witness :
    List.lookup (client_json_path ("/home/u")) emptyTioState.files = none ∧
    List.lookup (client_json_path ("/home/u"))
      (bootstrap_state ("/home/u") emptyTioState ("AK") ("SK")).files =
        some (credJson ("AK") ("SK")) ∧
    getKeys (credJson ("AK") ("SK")) = some (.jstr ("AK"), .jstr ("SK")) ∧
    check_api_keys ("/home/u") emptyTioState ("AK") ("SK") =
      .ok ⟨⟨.jstr ("AK"), .jstr ("SK")⟩, 2,
        bootstrap_state ("/home/u") emptyTioState ("AK") ("SK")⟩ ∧
    check_api_keys ("/home/u") (bootstrap_state ("/home/u") emptyTioState ("AK") ("SK"))
        ("X") ("Y") =
      .ok ⟨⟨.jstr ("AK"), .jstr ("SK")⟩, 0,
        bootstrap_state ("/home/u") emptyTioState ("AK") ("SK")⟩ := by
  have h := check_api_keys_prompts_iff_absent ("/home/u") ("AK") ("SK") ("X") ("Y")
    emptyTioState (bootstrap_state ("/home/u") emptyTioState ("AK") ("SK"))
    (credJson ("AK") ("SK")) (.jstr ("AK")) (.jstr ("SK")) rfl (by rfl) rfl
  exact ⟨rfl, by rfl, rfl, h.1, h.2.1⟩

/-- **C8.** After first-run credential bootstrap, the credential file exists
at `<home>/.tio/client.json` containing
`{"tenable_io": {"a_key": <entered access key>, "s_key": <entered secret
key>}}`, the parent directory was created with mode `0700` if it was
missing, and the file has mode `0600`. -/
theorem check_api_keys_bootstrap_file (home a s : String) (st : TioState)
    (habs : List.lookup (client_json_path home) st.files = none) :
    check_api_keys home st a s = .ok ⟨⟨.jstr a, .jstr s⟩, 2, bootstrap_state home st a s⟩ ∧
    List.lookup (client_json_path home) (bootstrap_state home st a s).files =
      some (credJson a s) ∧
    (List.lookup (tio_dir_path home) st.dirs = none →
      List.lookup (tio_dir_path home) (bootstrap_state home st a s).dirs = some 0o700) ∧
    List.lookup (client_json_path home) (bootstrap_state home st a s).fmodes = some 0o600 := by
  refine ⟨?_, ?_, ?_, ?_⟩
  · rw [check_api_keys, habs]
  · rw [bootstrap_state]
    exact lookup_setA_self _ _ _
  · intro hdir
    rw [bootstrap_state]
    simp only [hdir, Option.isSome_none, Bool.false_eq_true, if_false]
    exact lookup_setA_self _ _ _
  · rw [bootstrap_state]
    exact lookup_setA_self _ _ _

/-- Witness for C8: bootstrap from an empty file system. -/
theorem check_api_keys_bootstrap_file_witness :
    List.lookup (client_json_path ("/home/u")) emptyTioState.files = none ∧
    List.lookup (tio_dir_path ("/home/u")) emptyTioState.dirs = none ∧
    check_api_keys ("/home/u") emptyTioState ("AK") ("SK") =
      .ok ⟨⟨.jstr ("AK"), .jstr ("SK")⟩, 2,
        bootstrap_state ("/home/u") emptyTioState ("AK") ("SK")⟩ ∧
    List.lookup (client_json_path ("/home/u"))
      (bootstrap_state ("/home/u") emptyTioState ("AK") ("SK")).files =
        some (credJson ("AK") ("SK")) ∧
    List.lookup (tio_dir_path ("/home/u"))
      (bootstrap_state ("/home/u") emptyTioState ("AK") ("SK")).dirs = some 0o700 ∧
    List.lookup (client_json_path ("/home/u"))
      (bootstrap_state ("/home/u") emptyTioState ("AK") ("SK")).fmodes = some 0o600 := by
  have h := check_api_keys_bootstrap_file ("/home/u") ("AK") ("SK") emptyTioState rfl
  exact ⟨rfl, rfl, h.1, h.2.1, h.2.2.1 rfl, h.2.2.2⟩

/-! ## Export-loop lemmas -/

/-- The loop only writes paths `filename ++ "." ++ f` for formats `f` in its
list: every other path is untouched. -/
theorem exportLoop_frame (sid hid : Option Int) (F : String)
    (collab : Option Int → Option Int → String → Except String (List Nat)) (p : String) :
    ∀ (fmts : List String) (fs : List (String × List Nat)),
    (∀ f ∈ fmts, p ≠ F ++ "." ++ f) →
    List.lookup p (exportLoop sid hid F collab fmts fs).fs = List.lookup p fs := by
  intro fmts
  induction fmts with
  | nil => intro fs _; rfl
  | cons g rest ih =>
    intro fs h
    cases hc : collab sid hid g with
    | ok b =>
      have hred : (exportLoop sid hid F collab (g :: rest) fs).fs
          = (exportLoop sid hid F collab rest (setA fs (F ++ "." ++ g) b)).fs := by
        rw [exportLoop, hc]
      rw [hred, ih _ (fun f hf => h f (List.mem_cons_of_mem g hf)),
        lookup_setA_ne (h g (List.mem_cons_self g rest))]
    | error e =>
      have hred : (exportLoop sid hid F collab (g :: rest) fs).fs
          = setA fs (F ++ "." ++ g) [] := by
        rw [exportLoop, hc]
      rw [hred, lookup_setA_ne (h g (List.mem_cons_self g rest))]

/-- When the collaborator succeeds on every format, the loop finishes with
no error, one attempt per format in order, and each format's file holding
its bytes. -/
theorem exportLoop_ok (sid hid : Option Int) (F : String)
    (collab : Option Int → Option Int → String → Except String (List Nat))
    (bytes : String → List Nat) :
    ∀ (fmts : List String) (fs : List (String × List Nat)),
    (∀ f ∈ fmts, collab sid hid f = .ok (bytes f)) →
    (exportLoop sid hid F collab fmts fs).err = none ∧
    (exportLoop sid hid F collab fmts fs).attempts = fmts.map (fun f => (sid, hid, f)) ∧
    ∀ f ∈ fmts,
      List.lookup (F ++ "." ++ f) (exportLoop sid hid F collab fmts fs).fs = some (bytes f) := by
  intro fmts
  induction fmts with
  | nil =>
    intro fs _
    exact ⟨rfl, rfl, fun f hf => absurd hf (List.not_mem_nil f)⟩
  | cons g rest ih =>
    intro fs h
    have hg : collab sid hid g = .ok (bytes g) := h g (List.mem_cons_self g rest)
    have hrec := ih (setA fs (F ++ "." ++ g) (bytes g))
      (fun f hf => h f (List.mem_cons_of_mem g hf))
    have hred : exportLoop sid hid F collab (g :: rest) fs =
        ⟨(exportLoop sid hid F collab rest (setA fs (F ++ "." ++ g) (bytes g))).fs,
         (sid, hid, g) ::
           (exportLoop sid hid F collab rest (setA fs (F ++ "." ++ g) (bytes g))).attempts,
         (F ++ "." ++ g) ::
           (exportLoop sid hid F collab rest (setA fs (F ++ "." ++ g) (bytes g))).printed,
         (exportLoop sid hid F collab rest (setA fs (F ++ "." ++ g) (bytes g))).err⟩ := by
      rw [exportLoop, hg]
    rw [hred]
    refine ⟨hrec.1, ?_, ?_⟩
    · rw [List.map_cons]
      exact congrArg _ hrec.2.1
    · intro f hf
      rcases List.mem_cons.mp hf with rfl | hf2
      · by_cases hfr : f ∈ rest
        · exact hrec.2.2 f hfr
        · have hfr2 : ∀ f2 ∈ rest, F ++ "." ++ f ≠ F ++ "." ++ f2 := by
            intro f2 hf2 heq
            exact hfr (path_inj heq ▸ hf2)
          rw [exportLoop_frame sid hid F collab (F ++ "." ++ f) rest _ hfr2]
          exact lookup_setA_self _ _ _
      · exact hrec.2.2 f hf2

/-- When the collaborator succeeds on `pre` and fails at `fk`, the loop
stops at `fk`: error propagated, attempts are `pre ++ [fk]`, and the file
system is the `pre` writes plus the truncated `fk` file. -/
theorem exportLoop_fail (sid hid : Option Int) (F : String)
    (collab : Option Int → Option Int → String → Except String (List Nat))
    (bytes : String → List Nat) (e : String) (fk : String) (post : List String) :
    ∀ (pre : List String) (fs : List (String × List Nat)),
    (∀ f ∈ pre, collab sid hid f = .ok (bytes f)) →
    collab sid hid fk = .error e →
    exportLoop sid hid F collab (pre ++ fk :: post) fs =
      ⟨setA (pre.foldl (fun acc f => setA acc (F ++ "." ++ f) (bytes f)) fs)
         (F ++ "." ++ fk) [],
       (pre ++ [fk]).map (fun f => (sid, hid, f)),
       pre.map (fun f => F ++ "." ++ f),
       some e⟩ := by
  intro pre
  induction pre with
  | nil =>
    intro fs _ hfail
    rw [List.nil_append, exportLoop, hfail]
    rfl
  | cons g rest ih =>
    intro fs h hfail
    have hg : collab sid hid g = .ok (bytes g) := h g (List.mem_cons_self g rest)
    have hrec := ih (setA fs (F ++ "." ++ g) (bytes g))
      (fun f hf => h f (List.mem_cons_of_mem g hf)) hfail
    rw [List.cons_append, exportLoop]
    simp only [hg]
    rw [hrec]
    rfl

/-- Folding the `pre` writes over the file system: a path not of the form
`F ++ "." ++ f` for `f ∈ pre` is untouched. -/
theorem lookup_foldl_frame (F : String) (bytes : String → List Nat) (p : String) :
    ∀ (pre : List String) (fs : List (String × List Nat)),
    (∀ f ∈ pre, p ≠ F ++ "." ++ f) →
    List.lookup p (pre.foldl (fun acc f => setA acc (F ++ "." ++ f) (bytes f)) fs) =
      List.lookup p fs := by
  intro pre
  induction pre with
  | nil => intro fs _; rfl
  | cons g rest ih =>
    intro fs h
    rw [List.foldl_cons, ih _ (fun f hf => h f (List.mem_cons_of_mem g hf)),
      lookup_setA_ne (h g (List.mem_cons_self g rest))]

/-- Folding the `pre` writes over the file system: each `f ∈ pre` ends with
its bytes at its path. -/
theorem lookup_foldl_mem (F : String) (bytes : String → List Nat) :
    ∀ (pre : List String) (fs : List (String × List Nat)) (f : String), f ∈ pre →
    List.lookup (F ++ "." ++ f)
      (pre.foldl (fun acc f2 => setA acc (F ++ "." ++ f2) (bytes f2)) fs) =
      some (bytes f) := by
  intro pre
  induction pre with
  | nil => intro fs f hf; exact absurd hf (List.not_mem_nil f)
  | cons g rest ih =>
    intro fs f hf
    rw [List.foldl_cons]
    rcases List.mem_cons.mp hf with rfl | hf2
    · by_cases hfr : f ∈ rest
      · exact ih _ f hfr
      · have hfr2 : ∀ f2 ∈ rest, F ++ "." ++ f ≠ F ++ "." ++ f2 := by
          intro f2 hf2 heq
          exact hfr (path_inj heq ▸ hf2)
        rw [lookup_foldl_frame F bytes (F ++ "." ++ f) rest _ hfr2]
        exact lookup_setA_self _ _ _
    · exact ih _ f hf2

/-! ## Claims about the export handler -/

/-- **C4.** For every successful export invocation with filename `F` and
format list `f1..fn`, exactly the files `F.f1 .. F.fn` exist afterwards in
the working directory (started empty), each containing exactly the bytes
the export collaborator returned for that format, and no stray file named
`F` remains. -/
theorem export_scans_exact_files (sid hid : Option Int) (F : String) (fmts : List String)
    (collab : Option Int → Option Int → String → Except String (List Nat))
    (bytes : String → List Nat)
    (hok : ∀ f ∈ fmts, collab sid hid f = .ok (bytes f)) :
    (export_scans sid hid F fmts collab []).err = none ∧
    (∀ f ∈ fmts, List.lookup (F ++ "." ++ f) (export_scans sid hid F fmts collab []).fs
      = some (bytes f)) ∧
    List.lookup F (export_scans sid hid F fmts collab []).fs = none ∧
    (∀ p, (List.lookup p (export_scans sid hid F fmts collab []).fs).isSome = true ↔
      ∃ f, f ∈ fmts ∧ p = F ++ "." ++ f) := by
  rcases hE : exportLoop sid hid F collab fmts (setA [] F []) with ⟨fs1, att1, pr1, err1⟩
  have hloop := exportLoop_ok sid hid F collab bytes fmts (setA [] F []) hok
  rw [hE] at hloop
  have herr : err1 = none := hloop.1
  subst herr
  have hexp : export_scans sid hid F fmts collab [] = ⟨removeA fs1 F, att1, pr1, none⟩ := by
    rw [export_scans, hE]
  have hmem : ∀ f ∈ fmts, List.lookup (F ++ "." ++ f) (removeA fs1 F) = some (bytes f) := by
    intro f hf
    rw [lookup_removeA_ne (path_ne_base F f) fs1]
    exact hloop.2.2 f hf
  rw [hexp]
  refine ⟨rfl, hmem, lookup_removeA_self fs1 F, ?_⟩
  intro p
  constructor
  · intro hp
    by_contra hno
    have hnp : ∀ f ∈ fmts, p ≠ F ++ "." ++ f := by
      intro f hf heq
      exact hno ⟨f, hf, heq⟩
    by_cases hpF : p = F
    · rw [hpF, lookup_removeA_self fs1 F] at hp
      exact Bool.noConfusion hp
    · have hfr : List.lookup p fs1 = List.lookup p (setA [] F []) := by
        have := exportLoop_frame sid hid F collab p fmts (setA [] F []) hnp
        rw [hE] at this
        exact this
      rw [lookup_removeA_ne hpF fs1, hfr, lookup_setA_ne hpF] at hp
      exact Bool.noConfusion hp
  · rintro ⟨f, hf, rfl⟩
    rw [hmem f hf]
    rfl

/-- Witness for C4: scan `1337`, filename `report`, formats `csv` and
`pdf`. -/
theorem export_scans_exact_files_witness :
    collabAllOk (some 1337) none ("csv") = .ok [1, 2, 3] ∧
    (export_scans (some 1337) none ("report") [("csv"), ("pdf")] collabAllOk []).err = none ∧
    List.lookup (("report") ++ "." ++ ("csv"))
      (export_scans (some 1337) none ("report") [("csv"), ("pdf")] collabAllOk []).fs
      = some [1, 2, 3] ∧
    List.lookup (("report") ++ "." ++ ("pdf"))
      (export_scans (some 1337) none ("report") [("csv"), ("pdf")] collabAllOk []).fs
      = some [1, 2, 3] ∧
    List.lookup ("report")
      (export_scans (some 1337) none ("report") [("csv"), ("pdf")] collabAllOk []).fs
      = none := by
  have h := export_scans_exact_files (some 1337) none ("report") [("csv"), ("pdf")]
    collabAllOk (fun _ => [1, 2, 3]) (by intro f hf; rfl)
  exact ⟨rfl, h.1, h.2.1 ("csv") (by simp), h.2.1 ("pdf") (by simp), h.2.2.1⟩

/-- **C6.** For every export invocation in which the export of the `k`-th
requested format fails, no export is attempted for the formats after the
`k`-th (the attempts are exactly the formats up to and including the
failing one), the failure propagates uncaught, and the files already
written for the formats before the `k`-th remain on disk. -/
theorem export_scans_abort_on_failure (sid hid : Option Int) (F : String)
    (pre post : List String) (fk : String)
    (collab : Option Int → Option Int → String → Except String (List Nat))
    (bytes : String → List Nat) (e : String)
    (hok : ∀ f ∈ pre, collab sid hid f = .ok (bytes f))
    (hfail : collab sid hid fk = .error e) :
    (export_scans sid hid F (pre ++ fk :: post) collab []).err = some e ∧
    (export_scans sid hid F (pre ++ fk :: post) collab []).attempts
      = (pre ++ [fk]).map (fun f => (sid, hid, f)) ∧
    ∀ f ∈ pre, List.lookup (F ++ "." ++ f)
      (export_scans sid hid F (pre ++ fk :: post) collab []).fs = some (bytes f) := by
  have hloop := exportLoop_fail sid hid F collab bytes e fk post pre (setA [] F []) hok hfail
  have hexp : export_scans sid hid F (pre ++ fk :: post) collab [] =
      ⟨setA (pre.foldl (fun acc f => setA acc (F ++ "." ++ f) (bytes f)) (setA [] F []))
         (F ++ "." ++ fk) [],
       (pre ++ [fk]).map (fun f => (sid, hid, f)),
       pre.map (fun f => F ++ "." ++ f),
       some e⟩ := by
    rw [export_scans, hloop]
  rw [hexp]
  refine ⟨rfl, rfl, ?_⟩
  intro f hf
  have hne_fk : f ≠ fk := by
    intro hEq
    have h1 := hok f hf
    rw [hEq, hfail] at h1
    exact Except.noConfusion h1
  show List.lookup (F ++ "." ++ f)
    (setA (pre.foldl (fun acc f2 => setA acc (F ++ "." ++ f2) (bytes f2)) (setA [] F []))
      (F ++ "." ++ fk) []) = some (bytes f)
  rw [lookup_setA_ne (fun heq => hne_fk (path_inj heq))]
  exact lookup_foldl_mem F bytes pre _ f hf

/-- Witness for C6: formats `csv`, `pdf`, `html` where `pdf` fails: `csv`
was written and remains, `html` is never attempted. -/
theorem export_scans_abort_on_failure_witness :
    collabFailPdf (some 1337) none ("csv") = .ok [7] ∧
    collabFailPdf (some 1337) none ("pdf") = .error ("boom") ∧
    (export_scans (some 1337) none ("report") [("csv"), ("pdf"), ("html")]
      collabFailPdf []).err = some ("boom") ∧
    (export_scans (some 1337) none ("report") [("csv"), ("pdf"), ("html")]
      collabFailPdf []).attempts
      = [(some 1337, none, ("csv")), (some 1337, none, ("pdf"))] ∧
    List.lookup (("report") ++ "." ++ ("csv"))
      (export_scans (some 1337) none ("report") [("csv"), ("pdf"), ("html")]
        collabFailPdf []).fs = some [7] := by
  have h := export_scans_abort_on_failure (some 1337) none ("report") [("csv")] [("html")]
    ("pdf") collabFailPdf (fun _ => [7]) ("boom")
    (by intro f hf; simp only [List.mem_singleton] at hf; subst hf; rfl) rfl
  exact ⟨rfl, rfl, h.1, h.2.1, h.2.2 ("csv") (by simp)⟩

/-! ## Claim C9: `export` without a `scan_id` -/

/-- The attempts of an export invocation are those of its per-format loop
(the success-path `os.remove` does not change them). -/
theorem export_scans_attempts_eq (sid hid : Option Int) (F : String) (fmts : List String)
    (collab : Option Int → Option Int → String → Except String (List Nat))
    (fs0 : List (String × List Nat)) :
    (export_scans sid hid F fmts collab fs0).attempts
      = (exportLoop sid hid F collab fmts (setA fs0 F [])).attempts := by
  rcases hE : exportLoop sid hid F collab fmts (setA fs0 F []) with ⟨fs1, att1, pr1, err1⟩
  rw [export_scans, hE]
  cases err1 <;> rfl

/-- On a nonempty format list the loop always calls the collaborator at
least once, first on the first format. -/
theorem exportLoop_attempts_head (sid hid : Option Int) (F : String)
    (collab : Option Int → Option Int → String → Except String (List Nat))
    (f0 : String) (rest : List String) (fs : List (String × List Nat)) :
    (exportLoop sid hid F collab (f0 :: rest) fs).attempts ≠ [] ∧
    ((exportLoop sid hid F collab (f0 :: rest) fs).attempts).head? = some (sid, hid, f0) := by
  cases hc : collab sid hid f0 with
  | ok b =>
    have hred : (exportLoop sid hid F collab (f0 :: rest) fs).attempts
        = (sid, hid, f0) ::
          (exportLoop sid hid F collab rest (setA fs (F ++ "." ++ f0) b)).attempts := by
      rw [exportLoop]
      simp only [hc]
    rw [hred]
    exact ⟨List.cons_ne_nil _ _, rfl⟩
  | error e =>
    have hred : (exportLoop sid hid F collab (f0 :: rest) fs).attempts
        = [(sid, hid, f0)] := by
      rw [exportLoop]
      simp only [hc]
    rw [hred]
    exact ⟨List.cons_ne_nil _ _, rfl⟩

/-- **C9 counterexample.** The claim says the export command requires a
`scan_id` and is rejected before any collaborator call when it is absent.
In fact `-s` is optional (`required` is not set): `export report csv`
parses successfully with `scan_id = None`, and the handler then calls the
export collaborator once, passing the null `scan_id`. -/
theorem export_without_scan_id_calls_collab :
    parse_export_args [("report"), ("csv")] = some ⟨none, none, ("report"), [("csv")]⟩ ∧
    (export_scans none none ("report") [("csv")] collabAllOk []).attempts
      = [(none, none, ("csv"))] := by
  exact ⟨rfl, rfl⟩

/-- **C9 (amended).** The export command does not require a `scan_id`: an
invocation without `-s` parses successfully with a null `scan_id`
(`export report csv` yields `scan_id = None`), no rejection happens, and
`export_scans` calls the export collaborator — the first call carrying the
null `scan_id` and the first requested format. -/
theorem export_scan_id_optional (hid : Option Int) (F f0 : String) (fmtRest : List String)
    (collab : Option Int → Option Int → String → Except String (List Nat)) :
    parse_export_args [("report"), ("csv")] = some ⟨none, none, ("report"), [("csv")]⟩ ∧
    (export_scans none hid F (f0 :: fmtRest) collab []).attempts ≠ [] ∧
    ((export_scans none hid F (f0 :: fmtRest) collab []).attempts).head?
      = some (none, hid, f0) := by
  have h := exportLoop_attempts_head none hid F collab f0 fmtRest (setA [] F [])
  rw [export_scans_attempts_eq none hid F (f0 :: fmtRest) collab []]
  exact ⟨rfl, h.1, h.2⟩

/-- Witness for C9 (amended): a concrete no-`scan_id` export run. -/
theorem export_scan_id_optional_witness :
    parse_export_args [("report"), ("csv")] = some ⟨none, none, ("report"), [("csv")]⟩ ∧
    (export_scans none none ("rep2") [("csv")] collabAllOk []).attempts ≠ [] ∧
    ((export_scans none none ("rep2") [("csv")] collabAllOk []).attempts).head?
      = some (none, none, ("csv")) :=
  export_scan_id_optional none ("rep2") ("csv") [] collabAllOk

/-! ## Claim C7: exit behaviour of the dispatcher -/

end Tio
